import Mathlib

/-!
Verification of the entity-retrieval and tool-dispatch core of
`src/mcp_server_nextgen/server.py`.

The embedding models Python JSON-like values (`PyVal`), Python `dict`
staging stores keyed by arbitrary values (`StoreA`), the pagination walker
`retrieve_entities`, the result formatter `format_resource_result`, the
CSV tool loader `load_tools_from_csv`, the resource reader
`handle_read_resource`, and the tool dispatcher `handle_call_tool`.
External collaborators (OAuth token provider, HTTP transport, the JSON
parser applied to CSV columns) are modelled as oracles passed in as
arguments; everything else is translated branch-by-branch from the source.
-/

/-- A Python value as it appears in JSON responses and tool arguments:
`None`, booleans, integers, strings, lists, and string-keyed dicts. -/
inductive PyVal where
  | none
  | bool (b : Bool)
  | int (n : Int)
  | str (s : String)
  | list (xs : List PyVal)
  | dict (fields : List (String × PyVal))
deriving Repr

mutual

/-- Structural decidable equality on `PyVal` (hand-rolled; the nested
inductive defeats `deriving`). -/
def PyVal.deq : (a b : PyVal) → Decidable (a = b)
  | .none, .none => Decidable.isTrue rfl
  | .bool a, .bool b =>
      if h : a = b then Decidable.isTrue (by rw [h])
      else Decidable.isFalse (fun hc => by cases hc; exact h rfl)
  | .int a, .int b =>
      if h : a = b then Decidable.isTrue (by rw [h])
      else Decidable.isFalse (fun hc => by cases hc; exact h rfl)
  | .str a, .str b =>
      if h : a = b then Decidable.isTrue (by rw [h])
      else Decidable.isFalse (fun hc => by cases hc; exact h rfl)
  | .list xs, .list ys =>
      match PyVal.deqList xs ys with
      | Decidable.isTrue h => Decidable.isTrue (by rw [h])
      | Decidable.isFalse h => Decidable.isFalse (fun hc => by cases hc; exact h rfl)
  | .dict xs, .dict ys =>
      match PyVal.deqFields xs ys with
      | Decidable.isTrue h => Decidable.isTrue (by rw [h])
      | Decidable.isFalse h => Decidable.isFalse (fun hc => by cases hc; exact h rfl)
  | .none, .bool _ => Decidable.isFalse (fun h => nomatch h)
  | .none, .int _ => Decidable.isFalse (fun h => nomatch h)
  | .none, .str _ => Decidable.isFalse (fun h => nomatch h)
  | .none, .list _ => Decidable.isFalse (fun h => nomatch h)
  | .none, .dict _ => Decidable.isFalse (fun h => nomatch h)
  | .bool _, .none => Decidable.isFalse (fun h => nomatch h)
  | .bool _, .int _ => Decidable.isFalse (fun h => nomatch h)
  | .bool _, .str _ => Decidable.isFalse (fun h => nomatch h)
  | .bool _, .list _ => Decidable.isFalse (fun h => nomatch h)
  | .bool _, .dict _ => Decidable.isFalse (fun h => nomatch h)
  | .int _, .none => Decidable.isFalse (fun h => nomatch h)
  | .int _, .bool _ => Decidable.isFalse (fun h => nomatch h)
  | .int _, .str _ => Decidable.isFalse (fun h => nomatch h)
  | .int _, .list _ => Decidable.isFalse (fun h => nomatch h)
  | .int _, .dict _ => Decidable.isFalse (fun h => nomatch h)
  | .str _, .none => Decidable.isFalse (fun h => nomatch h)
  | .str _, .bool _ => Decidable.isFalse (fun h => nomatch h)
  | .str _, .int _ => Decidable.isFalse (fun h => nomatch h)
  | .str _, .list _ => Decidable.isFalse (fun h => nomatch h)
  | .str _, .dict _ => Decidable.isFalse (fun h => nomatch h)
  | .list _, .none => Decidable.isFalse (fun h => nomatch h)
  | .list _, .bool _ => Decidable.isFalse (fun h => nomatch h)
  | .list _, .int _ => Decidable.isFalse (fun h => nomatch h)
  | .list _, .str _ => Decidable.isFalse (fun h => nomatch h)
  | .list _, .dict _ => Decidable.isFalse (fun h => nomatch h)
  | .dict _, .none => Decidable.isFalse (fun h => nomatch h)
  | .dict _, .bool _ => Decidable.isFalse (fun h => nomatch h)
  | .dict _, .int _ => Decidable.isFalse (fun h => nomatch h)
  | .dict _, .str _ => Decidable.isFalse (fun h => nomatch h)
  | .dict _, .list _ => Decidable.isFalse (fun h => nomatch h)

/-- Decidable equality on lists of `PyVal`. -/
def PyVal.deqList : (xs ys : List PyVal) → Decidable (xs = ys)
  | [], [] => Decidable.isTrue rfl
  | [], _ :: _ => Decidable.isFalse (fun h => nomatch h)
  | _ :: _, [] => Decidable.isFalse (fun h => nomatch h)
  | x :: xs, y :: ys =>
      match PyVal.deq x y, PyVal.deqList xs ys with
      | Decidable.isTrue h1, Decidable.isTrue h2 => Decidable.isTrue (by rw [h1, h2])
      | Decidable.isFalse h1, _ => Decidable.isFalse (fun hc => by cases hc; exact h1 rfl)
      | _, Decidable.isFalse h2 => Decidable.isFalse (fun hc => by cases hc; exact h2 rfl)

/-- Decidable equality on dict field lists. -/
def PyVal.deqFields : (xs ys : List (String × PyVal)) → Decidable (xs = ys)
  | [], [] => Decidable.isTrue rfl
  | [], _ :: _ => Decidable.isFalse (fun h => nomatch h)
  | _ :: _, [] => Decidable.isFalse (fun h => nomatch h)
  | (k1, v1) :: xs, (k2, v2) :: ys =>
      if hk : k1 = k2 then
        match PyVal.deq v1 v2, PyVal.deqFields xs ys with
        | Decidable.isTrue h1, Decidable.isTrue h2 =>
            Decidable.isTrue (by rw [hk, h1, h2])
        | Decidable.isFalse h1, _ =>
            Decidable.isFalse (fun hc => by cases hc; exact h1 rfl)
        | _, Decidable.isFalse h2 =>
            Decidable.isFalse (fun hc => by cases hc; exact h2 rfl)
      else Decidable.isFalse (fun hc => by cases hc; exact hk rfl)

end

instance : DecidableEq PyVal := PyVal.deq

/-- Python truthiness (`if v:`): `None`, `False`, `0`, `""`, `[]`, empty
dict are falsy, everything else truthy. -/
def pyTruthy : PyVal → Bool
  | PyVal.none => false
  | PyVal.bool b => b
  | PyVal.int n => decide (n ≠ 0)
  | PyVal.str s => decide (s ≠ "")
  | PyVal.list xs => decide (xs ≠ [])
  | PyVal.dict fs => decide (fs ≠ [])

/-- `d.get(k, default)` on a string-keyed field list. -/
def getD (fs : List (String × PyVal)) (k : String) (d : PyVal) : PyVal :=
  match fs.find? (fun p => decide (p.1 = k)) with
  | Option.some p => p.2
  | Option.none => d

/-- `d.get(k)` without default: `Option.none` when the key is absent
(which Python renders as `None`). -/
def getOpt (fs : List (String × PyVal)) (k : String) : Option PyVal :=
  (fs.find? (fun p => decide (p.1 = k))).map Prod.snd

/-- `d[k]`: a lookup that raises `KeyError` when absent, so an `Option`. -/
def getItem (fs : List (String × PyVal)) (k : String) : Option PyVal :=
  (fs.find? (fun p => decide (p.1 = k))).map Prod.snd

/-- Python `a or b`: `a` when truthy, else `b`. -/
def pyOr (a b : PyVal) : PyVal :=
  if pyTruthy a then a else b

/-- Character-list prefix test (second list is the pattern). -/
def charsBeginWith : List Char → List Char → Bool
  | _, [] => true
  | [], _ :: _ => false
  | c :: cs, d :: ds => c == d && charsBeginWith cs ds

/-- Python `s.startswith(p)` (kernel-evaluable model of
`String.startsWith`). -/
def strStartsWith (s p : String) : Bool :=
  charsBeginWith s.data p.data

/-- Python `s.strip()`: drop surrounding whitespace. -/
def pyStrip (s : String) : List Char :=
  ((s.data.dropWhile Char.isWhitespace).reverse.dropWhile Char.isWhitespace).reverse

/-- A Python dict used as a staging/published store: insertion-ordered
association list from entity id (a `PyVal`) to entity. -/
abbrev StoreA : Type := List (PyVal × PyVal)

/-- `store[k] = v`: update the first binding of `k` in place, else append
(Python dict insertion-order semantics). -/
def storeSet : StoreA → PyVal → PyVal → StoreA
  | [], k, v => [(k, v)]
  | p :: rest, k, v =>
      if p.1 = k then (p.1, v) :: rest else p :: storeSet rest k v

/-- `store.get(k)` as an `Option`. -/
def storeGet (st : StoreA) (k : PyVal) : Option PyVal :=
  (List.find? (fun p => decide (p.1 = k)) st).map Prod.snd

theorem storeGet_nil (k : PyVal) : storeGet [] k = Option.none := rfl

theorem storeGet_storeSet (st : StoreA) (k k' v : PyVal) :
    storeGet (storeSet st k v) k' =
      if k' = k then Option.some v else storeGet st k' := by
  induction st with
  | nil =>
      by_cases h : k' = k
      · simp [storeSet, storeGet, h]
      · have h2 : ¬ k = k' := fun hc => h hc.symm
        simp [storeSet, storeGet, h, h2]
  | cons p rest ih =>
      by_cases hpk : p.1 = k
      · by_cases h : k' = k
        · simp [storeSet, storeGet, hpk, h]
        · have h2 : ¬ k = k' := fun hc => h hc.symm
          simp [storeSet, storeGet, hpk, h, h2]
      · by_cases hpk' : p.1 = k'
        · have hk : ¬ k' = k := fun hc => hpk (hpk'.trans hc)
          simp [storeSet, storeGet, hpk, hpk', hk, List.find?]
        · simp only [storeSet, if_neg hpk]
          have l1 : storeGet (p :: storeSet rest k v) k' =
              storeGet (storeSet rest k v) k' := by
            simp [storeGet, List.find?, hpk']
          have l2 : storeGet (p :: rest) k' = storeGet rest k' := by
            simp [storeGet, List.find?, hpk']
          rw [l1, l2, ih]

/-! ## Pagination walker (`retrieve_entities`, server.py lines 107-139) -/

/-- A GET request issued by the walker: target URL and query parameters
(`params` in the source). -/
structure HttpReq where
  url : String
  params : List (String × PyVal)
deriving DecidableEq, Repr

/-- One scripted outcome of `async_request`: a parsed JSON body, or a
transport/parse failure (`aiohttp` raising, caught by the walker). -/
inductive PageResult where
  | ok (resp : PyVal)
  | err
deriving DecidableEq, Repr

/-- Python iteration (`for item in items`): lists yield elements, strings
yield one-character strings, dicts yield their keys; `None`, booleans and
integers raise `TypeError` (modelled as `Option.none`). -/
def pyIter : PyVal → Option (List PyVal)
  | PyVal.list xs => Option.some xs
  | PyVal.str s => Option.some (s.data.map (fun c => PyVal.str (String.mk [c])))
  | PyVal.dict fs => Option.some (fs.map (fun p => PyVal.str p.1))
  | _ => Option.none

/-- The body of the `for item in items` loop (lines 119-123): unwrap an
inner `entity` object if present, read its `id`, and store the entity
under that id when the id is truthy.  The `Bool` is `true` when an
attribute error aborted the loop (an item or unwrapped entity that is not
a dict has no `.get`). -/
def processItems : List PyVal → StoreA → StoreA × Bool
  | [], store => (store, false)
  | item :: rest, store =>
      match item with
      | PyVal.dict f =>
          match getD f "entity" item with
          | PyVal.dict ef =>
              let eid := getD ef "id" PyVal.none
              let store2 :=
                if pyTruthy eid then storeSet store eid (PyVal.dict ef) else store
              processItems rest store2
          | _ => (store, true)
      | _ => (store, true)

/-- Line 118: `response.get("items") or response.get("value", [])`. -/
def pageItemsVal (f : List (String × PyVal)) : PyVal :=
  pyOr (getD f "items" PyVal.none) (getD f "value" (PyVal.list []))

/-- Line 125: `response.get("nextPageToken") or response.get("@odata.nextLink")`. -/
def pageNext (f : List (String × PyVal)) : PyVal :=
  pyOr (getD f "nextPageToken" PyVal.none) (getD f "@odata.nextLink" PyVal.none)

/-- Outcome of processing one page body inside the `while` loop. -/
inductive StepRes where
  | stop (store : StoreA)
  | raise (store : StoreA)
  | next (store : StoreA) (url : String) (params : List (String × PyVal))
deriving Repr

/-- Lines 118-133 for a single page body: pick the item list, fold the
items into the store, then decide continuation.  An absolute-URL token
(a string starting with `"http"`) replaces the URL and clears the params;
any other truthy token is sent as the `pagetoken` query parameter;
a falsy token breaks the loop. -/
def stepPage (url : String) (resp : PyVal) (store : StoreA) : StepRes :=
  match resp with
  | PyVal.dict f =>
      match pyIter (pageItemsVal f) with
      | Option.none => StepRes.raise store
      | Option.some items =>
          match processItems items store with
          | (s, true) => StepRes.raise s
          | (s, false) =>
              let t := pageNext f
              if pyTruthy t then
                match t with
                | PyVal.str u =>
                    if strStartsWith u "http" then StepRes.next s u []
                    else StepRes.next s url [("pagetoken", PyVal.str u)]
                | _ => StepRes.next s url [("pagetoken", t)]
              else StepRes.stop s
  | _ => StepRes.raise store

/-- How a walk ended: `finished` via `break`, `raised` via an exception
reaching the `except` handler, `starved` when the scripted responses ran
out before the loop ended (a model artifact, excluded by hypotheses). -/
inductive LoopOut where
  | finished (store : StoreA) (reqs : List HttpReq)
  | raised (store : StoreA) (reqs : List HttpReq)
  | starved (store : StoreA) (reqs : List HttpReq)
deriving DecidableEq, Repr

/-- The store a walk ended with, whatever the outcome (the `except`
handler returns the store too). -/
def LoopOut.store : LoopOut → StoreA
  | LoopOut.finished s _ => s
  | LoopOut.raised s _ => s
  | LoopOut.starved s _ => s

/-- The requests a walk issued, in order. -/
def LoopOut.reqs : LoopOut → List HttpReq
  | LoopOut.finished _ r => r
  | LoopOut.raised _ r => r
  | LoopOut.starved _ r => r

/-- The `while True` loop (lines 116-133), driven by the scripted list of
page responses: each iteration issues one request and consumes one
scripted response. -/
def retrieveLoop : List PageResult → String → List (String × PyVal) →
    StoreA → List HttpReq → LoopOut
  | [], _, _, store, reqs => LoopOut.starved store reqs
  | p :: ps, url, params, store, reqs =>
      let reqs2 := reqs ++ [HttpReq.mk url params]
      match p with
      | PageResult.err => LoopOut.raised store reqs2
      | PageResult.ok resp =>
          match stepPage url resp store with
          | StepRes.stop s => LoopOut.finished s reqs2
          | StepRes.raise s => LoopOut.raised s reqs2
          | StepRes.next s u q => retrieveLoop ps u q s reqs2

/-- Lines 111-113: `params = {}` plus the optional
`environmentId.eq` filter taken from `args["environment"]`. -/
def initParams (args : List (String × PyVal)) : List (String × PyVal) :=
  match getOpt args "environment" with
  | Option.some v => [("environmentId.eq", v)]
  | Option.none => []

/-- `retrieve_entities` (lines 107-139).  `st0` is the staging store the
kind held before the call; `store.clear()` on line 110 discards it, so
the walk always starts from the empty store.  The `try`/`except` and the
final `return store` are folded into `LoopOut`: both arms return
`LoopOut.store`. -/
def retrieve_entities (pages : List PageResult) (url : String)
    (args : List (String × PyVal)) (st0 : StoreA) : LoopOut :=
  retrieveLoop pages url (initParams args) [] []

/-! ## Specification-side characterization of the walker -/

/-- Line 120: `entity = item.get("entity", item)`, requiring the result to
be a dict (otherwise line 121 raises `AttributeError`). -/
def itemEntity (item : PyVal) : Option PyVal :=
  match item with
  | PyVal.dict f =>
      match getD f "entity" item with
      | PyVal.dict ef => Option.some (PyVal.dict ef)
      | _ => Option.none
  | _ => Option.none

/-- Lines 121-122: the entity id, provided it is truthy (a falsy or
missing `id` keeps the entity out of the store). -/
def entityIdOf (e : PyVal) : Option PyVal :=
  match e with
  | PyVal.dict f =>
      let i := getD f "id" PyVal.none
      if pyTruthy i then Option.some i else Option.none
  | _ => Option.none

/-- One iteration of the item loop as a pure store transformer. -/
def insOne (store : StoreA) (item : PyVal) : StoreA :=
  match itemEntity item with
  | Option.some e =>
      match entityIdOf e with
      | Option.some i => storeSet store i e
      | Option.none => store
  | Option.none => store

/-- The item loop raises no `AttributeError`: every item is a dict whose
unwrapped entity is a dict. -/
def itemsClean : List PyVal → Bool
  | [] => true
  | item :: rest => (itemEntity item).isSome && itemsClean rest

theorem processItems_cons (item : PyVal) (rest : List PyVal) (store : StoreA)
    (hee : (itemEntity item).isSome = true) :
    processItems (item :: rest) store = processItems rest (insOne store item) := by
  cases item with
  | dict f =>
      cases he : getD f "entity" (PyVal.dict f) with
      | dict ef =>
          simp only [processItems, he, insOne, itemEntity, entityIdOf]
          by_cases ht : pyTruthy (getD ef "id" PyVal.none) = true
          · simp [ht]
          · simp only [Bool.not_eq_true] at ht
            simp [ht]
      | none => simp [itemEntity, he] at hee
      | bool b => simp [itemEntity, he] at hee
      | int n => simp [itemEntity, he] at hee
      | str s => simp [itemEntity, he] at hee
      | list xs => simp [itemEntity, he] at hee
  | none => simp [itemEntity] at hee
  | bool b => simp [itemEntity] at hee
  | int n => simp [itemEntity] at hee
  | str s => simp [itemEntity] at hee
  | list xs => simp [itemEntity] at hee

theorem processItems_clean (items : List PyVal) (store : StoreA)
    (h : itemsClean items = true) :
    processItems items store = (items.foldl insOne store, false) := by
  induction items generalizing store with
  | nil => rfl
  | cons item rest ih =>
      simp only [itemsClean, Bool.and_eq_true] at h
      rw [processItems_cons item rest store h.1, List.foldl]
      exact ih _ h.2

/-- The entity an item contributes under key `k`, if any. -/
def entityMatch (item : PyVal) (k : PyVal) : Option PyVal :=
  match itemEntity item with
  | Option.some e =>
      match entityIdOf e with
      | Option.some i => if i = k then Option.some e else Option.none
      | Option.none => Option.none
  | Option.none => Option.none

/-- The last entity among `items` carrying truthy id `k` (later items
override earlier ones). -/
def lastEntityWithId : List PyVal → PyVal → Option PyVal
  | [], _ => Option.none
  | item :: rest, k =>
      match lastEntityWithId rest k with
      | Option.some e => Option.some e
      | Option.none => entityMatch item k

theorem storeGet_foldl_insOne (items : List PyVal) (store : StoreA) (k : PyVal) :
    storeGet (items.foldl insOne store) k =
      match lastEntityWithId items k with
      | Option.some e => Option.some e
      | Option.none => storeGet store k := by
  induction items generalizing store with
  | nil => rfl
  | cons item rest ih =>
      simp only [List.foldl, lastEntityWithId]
      rw [ih (insOne store item)]
      cases hrest : lastEntityWithId rest k with
      | some e => rfl
      | none =>
          simp only [insOne, entityMatch]
          cases hie : itemEntity item with
          | none => rfl
          | some e =>
              cases hid : entityIdOf e with
              | none => simp [hid]
              | some i =>
                  simp only [hid, storeGet_storeSet]
                  by_cases hik : i = k
                  · simp [hik]
                  · have hki : ¬ k = i := fun hc => hik hc.symm
                    simp [hik, hki]

theorem lastEntityWithId_append (l1 l2 : List PyVal) (k : PyVal) :
    lastEntityWithId (l1 ++ l2) k =
      match lastEntityWithId l2 k with
      | Option.some e => Option.some e
      | Option.none => lastEntityWithId l1 k := by
  induction l1 with
  | nil =>
      simp only [List.nil_append]
      cases lastEntityWithId l2 k with
      | some e => rfl
      | none => rfl
  | cons x xs ih =>
      simp only [List.cons_append, lastEntityWithId, List.append_eq]
      rw [ih]
      cases h2 : lastEntityWithId l2 k with
      | some e => rfl
      | none => rfl

/-! ## Page predicates and loop lemmas -/

/-- A page body whose item loop completes without raising: the selected
item value is iterable and every item unwraps to a dict entity. -/
def pageBodyClean (f : List (String × PyVal)) : Bool :=
  (pyIter (pageItemsVal f)).isSome && itemsClean ((pyIter (pageItemsVal f)).getD [])

/-- A page the walker processes and then continues past (clean body,
truthy continuation token). -/
def continuesPage : PageResult → Bool
  | PageResult.ok (PyVal.dict f) => pageBodyClean f && pyTruthy (pageNext f)
  | _ => false

/-- A page the walker processes and then breaks on (clean body, falsy or
absent continuation token). -/
def finalPage : PageResult → Bool
  | PageResult.ok (PyVal.dict f) => pageBodyClean f && !(pyTruthy (pageNext f))
  | _ => false

/-- The item list a page contributes. -/
def pageItems : PageResult → List PyVal
  | PageResult.ok (PyVal.dict f) => (pyIter (pageItemsVal f)).getD []
  | _ => []

/-- Folding one page's items into a store. -/
def stepStore (store : StoreA) (p : PageResult) : StoreA :=
  (pageItems p).foldl insOne store

/-- The specification-side merged mapping of a page sequence, starting
from the cleared store. -/
def specMerge (pages : List PageResult) : StoreA :=
  pages.foldl stepStore []

/-- The URL and query parameters of the follow-up request chosen for a
truthy continuation token `t` read off the dispatch on lines 127-131. -/
def nextReqOf (url : String) (t : PyVal) : String × List (String × PyVal) :=
  match t with
  | PyVal.str u =>
      if strStartsWith u "http" then (u, []) else (url, [("pagetoken", PyVal.str u)])
  | _ => (url, [("pagetoken", t)])

theorem stepPage_continues (url : String) (f : List (String × PyVal)) (store : StoreA)
    (hc : pageBodyClean f = true) (ht : pyTruthy (pageNext f) = true) :
    stepPage url (PyVal.dict f) store =
      StepRes.next (stepStore store (PageResult.ok (PyVal.dict f)))
        (nextReqOf url (pageNext f)).1 (nextReqOf url (pageNext f)).2 := by
  simp only [pageBodyClean, Bool.and_eq_true] at hc
  obtain ⟨hsome, hclean⟩ := hc
  cases hit : pyIter (pageItemsVal f) with
  | none => rw [hit] at hsome; simp at hsome
  | some items =>
      rw [hit] at hclean
      simp only [Option.getD_some] at hclean
      simp only [stepPage, hit, processItems_clean items store hclean, ht, if_pos,
        stepStore, pageItems, hit, Option.getD_some, nextReqOf]
      cases htk : pageNext f with
      | str u =>
          by_cases hu : strStartsWith u "http" = true
          · simp [hu]
          · simp only [Bool.not_eq_true] at hu
            simp [hu]
      | none => rfl
      | bool b => rfl
      | int n => rfl
      | list xs => rfl
      | dict g => rfl

theorem stepPage_final (url : String) (f : List (String × PyVal)) (store : StoreA)
    (hc : pageBodyClean f = true) (ht : pyTruthy (pageNext f) = false) :
    stepPage url (PyVal.dict f) store =
      StepRes.stop (stepStore store (PageResult.ok (PyVal.dict f))) := by
  simp only [pageBodyClean, Bool.and_eq_true] at hc
  obtain ⟨hsome, hclean⟩ := hc
  cases hit : pyIter (pageItemsVal f) with
  | none => rw [hit] at hsome; simp at hsome
  | some items =>
      rw [hit] at hclean
      simp only [Option.getD_some] at hclean
      simp [stepPage, hit, processItems_clean items store hclean, ht,
        stepStore, pageItems, Option.getD_some]

theorem retrieveLoop_reqs_extend (pages : List PageResult) :
    ∀ url params store reqs,
    ∃ t, (retrieveLoop pages url params store reqs).reqs = reqs ++ t := by
  induction pages with
  | nil => exact fun url params store reqs => ⟨[], by simp [retrieveLoop, LoopOut.reqs]⟩
  | cons p ps ih =>
      intro url params store reqs
      cases p with
      | err =>
          exact ⟨[HttpReq.mk url params], by simp [retrieveLoop, LoopOut.reqs]⟩
      | ok resp =>
          simp only [retrieveLoop]
          cases hs : stepPage url resp store with
          | stop s => exact ⟨[HttpReq.mk url params], by simp [LoopOut.reqs]⟩
          | raise s => exact ⟨[HttpReq.mk url params], by simp [LoopOut.reqs]⟩
          | next s u q =>
              obtain ⟨t, hts⟩ := ih u q s (reqs ++ [HttpReq.mk url params])
              exact ⟨[HttpReq.mk url params] ++ t, by rw [hts, List.append_assoc]⟩

theorem retrieveLoop_skip (good : List PageResult) :
    ∀ rest url params store reqs,
    (∀ p ∈ good, continuesPage p = true) →
    ∃ u2 q2 r2, retrieveLoop (good ++ rest) url params store reqs =
      retrieveLoop rest u2 q2 (good.foldl stepStore store) r2 := by
  induction good with
  | nil => exact fun rest url params store reqs _ => ⟨url, params, reqs, rfl⟩
  | cons p ps ih =>
      intro rest url params store reqs h
      have hp := h p (List.mem_cons_self p ps)
      cases p with
      | err => simp [continuesPage] at hp
      | ok resp =>
          cases resp with
          | dict f =>
              simp only [continuesPage, Bool.and_eq_true] at hp
              simp only [List.cons_append, retrieveLoop,
                stepPage_continues url f store hp.1 hp.2]
              exact ih rest _ _ _ _ (fun q hq => h q (List.mem_cons_of_mem _ hq))
          | none => simp [continuesPage] at hp
          | bool b => simp [continuesPage] at hp
          | int n => simp [continuesPage] at hp
          | str s => simp [continuesPage] at hp
          | list xs => simp [continuesPage] at hp

/-- All items of a page sequence, in fetch order. -/
def allItems (pages : List PageResult) : List PyVal :=
  pages.foldr (fun p acc => pageItems p ++ acc) []

theorem storeGet_foldl_stepStore (pages : List PageResult) :
    ∀ (store : StoreA) (k : PyVal),
    storeGet (pages.foldl stepStore store) k =
      match lastEntityWithId (allItems pages) k with
      | Option.some e => Option.some e
      | Option.none => storeGet store k := by
  induction pages with
  | nil => intro store k; rfl
  | cons p ps ih =>
      intro store k
      have hall : allItems (p :: ps) = pageItems p ++ allItems ps := rfl
      have hs : storeGet (stepStore store p) k =
          match lastEntityWithId (pageItems p) k with
          | Option.some e => Option.some e
          | Option.none => storeGet store k := storeGet_foldl_insOne _ _ _
      rw [List.foldl_cons, ih (stepStore store p) k, hall, lastEntityWithId_append]
      cases h2 : lastEntityWithId (allItems ps) k with
      | some e => rfl
      | none => exact hs

/-- The walker always issues a request for the first scripted page. -/
theorem retrieveLoop_first_req (pages : List PageResult) (p : PageResult)
    (url : String) (params : List (String × PyVal)) (store : StoreA)
    (reqs : List HttpReq) :
    ∃ t, (retrieveLoop (p :: pages) url params store reqs).reqs =
      reqs ++ [HttpReq.mk url params] ++ t := by
  cases p with
  | err => exact ⟨[], by simp [retrieveLoop, LoopOut.reqs]⟩
  | ok resp =>
      simp only [retrieveLoop]
      cases hs : stepPage url resp store with
      | stop s => exact ⟨[], by simp [LoopOut.reqs]⟩
      | raise s => exact ⟨[], by simp [LoopOut.reqs]⟩
      | next s u q =>
          obtain ⟨t, hts⟩ := retrieveLoop_reqs_extend pages u q s
            (reqs ++ [HttpReq.mk url params])
          exact ⟨t, by rw [hts]⟩

/-- One loop iteration whose page continues: the loop recurses with the
follow-up URL, params and store, recording the request it just issued. -/
theorem retrieveLoop_cons_next (resp : PyVal) (ps : List PageResult)
    (url : String) (params : List (String × PyVal)) (store s : StoreA)
    (reqs : List HttpReq) (u : String) (q : List (String × PyVal))
    (hstep : stepPage url resp store = StepRes.next s u q) :
    retrieveLoop (PageResult.ok resp :: ps) url params store reqs =
      retrieveLoop ps u q s (reqs ++ [HttpReq.mk url params]) := by
  rw [retrieveLoop, hstep]

/-! ## Claims C2, C3, C4, C8: the pagination walker -/

/-- C2: when an HTTP request or JSON parse fails mid-walk, the walker does
not raise to its caller; the exception is caught (`LoopOut.raised`) and the
returned staging mapping is exactly the merge of the pages fetched before
the failure. -/
theorem C2_store_at_failure (good rest : List PageResult)
    (url : String) (args : List (String × PyVal)) (st0 : StoreA)
    (h : ∀ p ∈ good, continuesPage p = true) :
    (retrieve_entities (good ++ PageResult.err :: rest) url args st0).store =
      specMerge good ∧
    ∃ reqs, retrieve_entities (good ++ PageResult.err :: rest) url args st0 =
      LoopOut.raised (specMerge good) reqs := by
  obtain ⟨u2, q2, r2, hskip⟩ :=
    retrieveLoop_skip good (PageResult.err :: rest) url (initParams args) [] [] h
  unfold retrieve_entities
  rw [hskip]
  exact ⟨rfl, ⟨r2 ++ [HttpReq.mk u2 q2], rfl⟩⟩

/-- C2 witness: a concrete two-page walk whose second request fails keeps
the first page's entity. -/
theorem C2_witness :
    (∀ p ∈ [PageResult.ok (PyVal.dict
        [("items", PyVal.list [PyVal.dict [("id", PyVal.str "a1")]]),
         ("nextPageToken", PyVal.str "t2")])], continuesPage p = true) ∧
    ((retrieve_entities
        ([PageResult.ok (PyVal.dict
            [("items", PyVal.list [PyVal.dict [("id", PyVal.str "a1")]]),
             ("nextPageToken", PyVal.str "t2")])] ++
          PageResult.err :: []) "u" [] [(PyVal.str "old", PyVal.none)]).store =
      specMerge [PageResult.ok (PyVal.dict
        [("items", PyVal.list [PyVal.dict [("id", PyVal.str "a1")]]),
         ("nextPageToken", PyVal.str "t2")])] ∧
      ∃ reqs, retrieve_entities
        ([PageResult.ok (PyVal.dict
            [("items", PyVal.list [PyVal.dict [("id", PyVal.str "a1")]]),
             ("nextPageToken", PyVal.str "t2")])] ++
          PageResult.err :: []) "u" [] [(PyVal.str "old", PyVal.none)] =
        LoopOut.raised (specMerge [PageResult.ok (PyVal.dict
          [("items", PyVal.list [PyVal.dict [("id", PyVal.str "a1")]]),
           ("nextPageToken", PyVal.str "t2")])]) reqs) :=
  ⟨by decide, C2_store_at_failure _ _ "u" [] _ (by decide)⟩

/-- C3 counterexample: a page carrying a PRESENT `nextPageToken` field
whose value is the empty string terminates the walk (one single request,
the second scripted page never consumed), refuting "the loop terminates
exactly when neither field is present". -/
theorem C3_cex :
    retrieve_entities
        [PageResult.ok (PyVal.dict [("nextPageToken", PyVal.str "")]),
         PageResult.ok (PyVal.dict
           [("items", PyVal.list [PyVal.dict [("id", PyVal.str "x")]])])]
        "u" [] [] =
      LoopOut.finished [] [HttpReq.mk "u" []] ∧
    getOpt [("nextPageToken", PyVal.str "")] "nextPageToken" =
      Option.some (PyVal.str "") := by
  constructor
  · rfl
  · rfl

/-- C3 amended: continuation is decided by the truthiness of
`nextPageToken or @odata.nextLink` (`pageNext`).  A falsy token breaks the
loop after the current page; a truthy string token starting with `"http"`
makes the next GET target that URL with empty params; any other truthy
token is sent as the `pagetoken` query parameter against the current URL.
A page with zero items but a truthy token still triggers a further
request. -/
theorem C3_continuation_amended (url : String) (params : List (String × PyVal))
    (f : List (String × PyVal)) (store : StoreA) (reqs : List HttpReq)
    (hc : pageBodyClean f = true) :
    (pyTruthy (pageNext f) = false → ∀ rest,
      retrieveLoop (PageResult.ok (PyVal.dict f) :: rest) url params store reqs =
        LoopOut.finished (stepStore store (PageResult.ok (PyVal.dict f)))
          (reqs ++ [HttpReq.mk url params])) ∧
    (∀ u, pageNext f = PyVal.str u → strStartsWith u "http" = true →
      ∀ q rest,
      ∃ t, (retrieveLoop (PageResult.ok (PyVal.dict f) :: q :: rest)
              url params store reqs).reqs =
        reqs ++ [HttpReq.mk url params, HttpReq.mk u []] ++ t) ∧
    (pyTruthy (pageNext f) = true →
      (∀ u, pageNext f = PyVal.str u → strStartsWith u "http" = false) →
      ∀ q rest,
      ∃ t, (retrieveLoop (PageResult.ok (PyVal.dict f) :: q :: rest)
              url params store reqs).reqs =
        reqs ++ [HttpReq.mk url params,
                 HttpReq.mk url [("pagetoken", pageNext f)]] ++ t) := by
  refine ⟨?_, ?_, ?_⟩
  · intro ht rest
    simp only [retrieveLoop, stepPage_final url f store hc ht]
  · intro u hu hhttp q rest
    have ht : pyTruthy (pageNext f) = true := by
      rw [hu]
      simp only [pyTruthy, decide_eq_true_eq]
      intro hemp
      rw [hemp] at hhttp
      exact absurd hhttp (by decide)
    have hnext : nextReqOf url (pageNext f) = (u, []) := by
      rw [hu]
      simp [nextReqOf, hhttp]
    have hstep : stepPage url (PyVal.dict f) store =
        StepRes.next (stepStore store (PageResult.ok (PyVal.dict f))) u [] := by
      rw [stepPage_continues url f store hc ht, hnext]
    rw [retrieveLoop_cons_next _ _ _ _ _ _ _ _ _ hstep]
    obtain ⟨t, hts⟩ := retrieveLoop_first_req rest q u []
      (stepStore store (PageResult.ok (PyVal.dict f)))
      (reqs ++ [HttpReq.mk url params])
    refine ⟨t, ?_⟩
    rw [hts]
    simp [List.append_assoc]
  · intro ht hnu q rest
    have hnext : nextReqOf url (pageNext f) = (url, [("pagetoken", pageNext f)]) := by
      cases hn : pageNext f with
      | str u =>
          have := hnu u hn
          simp [nextReqOf, this]
      | none => rfl
      | bool b => rfl
      | int n => rfl
      | list xs => rfl
      | dict g => rfl
    have hstep : stepPage url (PyVal.dict f) store =
        StepRes.next (stepStore store (PageResult.ok (PyVal.dict f)))
          url [("pagetoken", pageNext f)] := by
      rw [stepPage_continues url f store hc ht, hnext]
    rw [retrieveLoop_cons_next _ _ _ _ _ _ _ _ _ hstep]
    obtain ⟨t, hts⟩ := retrieveLoop_first_req rest q url [("pagetoken", pageNext f)]
      (stepStore store (PageResult.ok (PyVal.dict f)))
      (reqs ++ [HttpReq.mk url params])
    refine ⟨t, ?_⟩
    rw [hts]
    simp [List.append_assoc]

/-- C3 witness: a page with zero items and truthy token `"tok"` makes the
walker issue a second request carrying `pagetoken=tok`. -/
theorem C3_witness :
    pageBodyClean [("items", PyVal.list []), ("nextPageToken", PyVal.str "tok")] = true ∧
    ∃ t, (retrieveLoop
        [PageResult.ok (PyVal.dict
           [("items", PyVal.list []), ("nextPageToken", PyVal.str "tok")]),
         PageResult.ok (PyVal.dict [])] "u" [] [] []).reqs =
      [] ++ [HttpReq.mk "u" [],
             HttpReq.mk "u" [("pagetoken",
               pageNext [("items", PyVal.list []), ("nextPageToken", PyVal.str "tok")])]] ++ t :=
  ⟨by decide,
   (C3_continuation_amended "u" [] _ [] [] (by decide)).2.2 (by decide)
     (by intro u hu; cases hu; decide) (PageResult.ok (PyVal.dict [])) []⟩

/-- C4: a retrieval call is independent of the prior staging content
(line 110 clears it); on a walk that completes without failure the
resulting staging mapping is, id by id, the last entity with that truthy
id across all pages (union keyed by id, later pages win, falsy or missing
ids excluded). -/
theorem C4_staging_union_by_id (good : List PageResult) (pfin : PageResult)
    (rest : List PageResult) (url : String) (args : List (String × PyVal))
    (st0 : StoreA)
    (hg : ∀ p ∈ good, continuesPage p = true) (hf : finalPage pfin = true) :
    (retrieve_entities (good ++ pfin :: rest) url args st0 =
       retrieve_entities (good ++ pfin :: rest) url args []) ∧
    (∃ reqs, retrieve_entities (good ++ pfin :: rest) url args st0 =
       LoopOut.finished (specMerge (good ++ [pfin])) reqs) ∧
    (∀ k, storeGet
        ((retrieve_entities (good ++ pfin :: rest) url args st0).store) k =
      lastEntityWithId (allItems (good ++ [pfin])) k) := by
  obtain ⟨u2, q2, r2, hskip⟩ :=
    retrieveLoop_skip good (pfin :: rest) url (initParams args) [] [] hg
  have hfin : retrieve_entities (good ++ pfin :: rest) url args st0 =
      LoopOut.finished (specMerge (good ++ [pfin])) (r2 ++ [HttpReq.mk u2 q2]) := by
    unfold retrieve_entities
    rw [hskip]
    cases pfin with
    | err => simp [finalPage] at hf
    | ok resp =>
        cases resp with
        | dict f =>
            simp only [finalPage, Bool.and_eq_true, Bool.not_eq_true] at hf
            rw [retrieveLoop, stepPage_final u2 f _ hf.1 (by simpa using hf.2)]
            have : specMerge (good ++ [PageResult.ok (PyVal.dict f)]) =
                stepStore (List.foldl stepStore [] good)
                  (PageResult.ok (PyVal.dict f)) := by
              simp [specMerge, List.foldl_append]
            rw [this]
        | none => simp [finalPage] at hf
        | bool b => simp [finalPage] at hf
        | int n => simp [finalPage] at hf
        | str s => simp [finalPage] at hf
        | list xs => simp [finalPage] at hf
  refine ⟨?_, ⟨r2 ++ [HttpReq.mk u2 q2], hfin⟩, ?_⟩
  · rw [hfin]
    unfold retrieve_entities
    unfold retrieve_entities at hfin
    rw [hfin]
  · intro k
    rw [hfin]
    show storeGet (specMerge (good ++ [pfin])) k = _
    unfold specMerge
    rw [storeGet_foldl_stepStore]
    cases h2 : lastEntityWithId (allItems (good ++ [pfin])) k with
    | some e => rfl
    | none => rfl

/-- C4 witness: two concrete pages with a duplicate id `"a"`: the second
page's entity wins, the falsy-id entity is dropped, and the prior
staging content is discarded. -/
theorem C4_witness :
    (∀ p ∈ [PageResult.ok (PyVal.dict
        [("items", PyVal.list
           [PyVal.dict [("id", PyVal.str "a"), ("v", PyVal.int 1)],
            PyVal.dict [("id", PyVal.str "")]]),
         ("nextPageToken", PyVal.str "t2")])], continuesPage p = true) ∧
    finalPage (PageResult.ok (PyVal.dict
      [("value", PyVal.list
         [PyVal.dict [("entity", PyVal.dict
            [("id", PyVal.str "a"), ("v", PyVal.int 2)])]])])) = true ∧
    (∀ k, storeGet
        ((retrieve_entities
           ([PageResult.ok (PyVal.dict
              [("items", PyVal.list
                 [PyVal.dict [("id", PyVal.str "a"), ("v", PyVal.int 1)],
                  PyVal.dict [("id", PyVal.str "")]]),
               ("nextPageToken", PyVal.str "t2")])] ++
            (PageResult.ok (PyVal.dict
              [("value", PyVal.list
                 [PyVal.dict [("entity", PyVal.dict
                    [("id", PyVal.str "a"), ("v", PyVal.int 2)])]])])) :: [])
           "u" [] [(PyVal.str "stale", PyVal.none)]).store) k =
      lastEntityWithId (allItems
        ([PageResult.ok (PyVal.dict
           [("items", PyVal.list
              [PyVal.dict [("id", PyVal.str "a"), ("v", PyVal.int 1)],
               PyVal.dict [("id", PyVal.str "")]]),
            ("nextPageToken", PyVal.str "t2")])] ++
         [PageResult.ok (PyVal.dict
           [("value", PyVal.list
              [PyVal.dict [("entity", PyVal.dict
                 [("id", PyVal.str "a"), ("v", PyVal.int 2)])]])])])) k) :=
  ⟨by decide, by decide,
   (C4_staging_union_by_id _ _ [] "u" [] [(PyVal.str "stale", PyVal.none)]
     (by decide) (by decide)).2.2⟩

/-- C8 counterexample: a page with a PRESENT but empty `items` array and a
non-empty `value` array.  The claim says the `items` array is used (so the
page yields zero entities); the code's `or` falls through to `value` and
stores its entity. -/
theorem C8_cex :
    retrieve_entities
        [PageResult.ok (PyVal.dict
           [("items", PyVal.list []),
            ("value", PyVal.list [PyVal.dict [("id", PyVal.str "e1")]])])]
        "u" [] [] =
      LoopOut.finished [(PyVal.str "e1", PyVal.dict [("id", PyVal.str "e1")])]
        [HttpReq.mk "u" []] ∧
    getOpt [("items", PyVal.list []),
            ("value", PyVal.list [PyVal.dict [("id", PyVal.str "e1")]])] "items" =
      Option.some (PyVal.list []) := by
  constructor
  · rfl
  · rfl

/-- C8 amended: the item list is selected by truthiness, not presence:
a truthy `items` value is used; a falsy or absent `items` value falls
through to `value` (default empty list).  Under either convention a truthy
list `v` yields the same page merge. -/
theorem C8_items_selection_amended (f : List (String × PyVal)) (st : StoreA)
    (v : PyVal) :
    (pyTruthy (getD f "items" PyVal.none) = true →
       pageItemsVal f = getD f "items" PyVal.none) ∧
    (pyTruthy (getD f "items" PyVal.none) = false →
       pageItemsVal f = getD f "value" (PyVal.list [])) ∧
    (pyTruthy v = true →
       pageItemsVal [("items", v)] = v ∧
       pageItemsVal [("value", v)] = v ∧
       stepStore st (PageResult.ok (PyVal.dict [("items", v)])) =
         stepStore st (PageResult.ok (PyVal.dict [("value", v)]))) := by
  refine ⟨?_, ?_, ?_⟩
  · intro ht
    simp [pageItemsVal, pyOr, ht]
  · intro ht
    simp [pageItemsVal, pyOr, ht]
  · intro ht
    have h1 : pageItemsVal [("items", v)] = v := by
      simp [pageItemsVal, pyOr, getD, List.find?, ht]
    have h2 : pageItemsVal [("value", v)] = v := by
      simp [pageItemsVal, pyOr, getD, List.find?, pyTruthy]
    refine ⟨h1, h2, ?_⟩
    simp [stepStore, pageItems, h1, h2]

/-- C8 witness: with a concrete non-empty list value both conventions
produce the same one-entity page merge. -/
theorem C8_witness :
    pyTruthy (PyVal.list [PyVal.dict [("id", PyVal.str "z")]]) = true ∧
    (pageItemsVal [("items", PyVal.list [PyVal.dict [("id", PyVal.str "z")]])] =
       PyVal.list [PyVal.dict [("id", PyVal.str "z")]] ∧
     pageItemsVal [("value", PyVal.list [PyVal.dict [("id", PyVal.str "z")]])] =
       PyVal.list [PyVal.dict [("id", PyVal.str "z")]] ∧
     stepStore [] (PageResult.ok (PyVal.dict
         [("items", PyVal.list [PyVal.dict [("id", PyVal.str "z")]])])) =
       stepStore [] (PageResult.ok (PyVal.dict
         [("value", PyVal.list [PyVal.dict [("id", PyVal.str "z")]])]))) :=
  ⟨by decide,
   (C8_items_selection_amended
      [("items", PyVal.list [PyVal.dict [("id", PyVal.str "z")]])] []
      (PyVal.list [PyVal.dict [("id", PyVal.str "z")]])).2.2 (by decide)⟩

/-! ## String rendering, numeric parsing, formatter, XML payload -/

mutual

/-- Python `repr()` on a `PyVal` (string escaping omitted; only used to
render f-string interpolations). -/
def pyRepr : PyVal → String
  | PyVal.none => "None"
  | PyVal.bool true => "True"
  | PyVal.bool false => "False"
  | PyVal.int n => toString n
  | PyVal.str s => "\x27" ++ s ++ "\x27"
  | PyVal.list xs => "[" ++ pyReprList xs ++ "]"
  | PyVal.dict fs => "\x7b" ++ pyReprFields fs ++ "\x7d"

/-- Comma-separated reprs of list elements. -/
def pyReprList : List PyVal → String
  | [] => ""
  | [x] => pyRepr x
  | x :: y :: rest => pyRepr x ++ ", " ++ pyReprList (y :: rest)

/-- Comma-separated `key: value` reprs of dict fields. -/
def pyReprFields : List (String × PyVal) → String
  | [] => ""
  | [(k, v)] => "\x27" ++ k ++ "\x27: " ++ pyRepr v
  | (k, v) :: p :: rest =>
      "\x27" ++ k ++ "\x27: " ++ pyRepr v ++ ", " ++ pyReprFields (p :: rest)

end

/-- Python `str()` as used by f-string interpolation. -/
def pyStr : PyVal → String
  | PyVal.str s => s
  | v => pyRepr v

/-- The numeric value of a non-empty all-digit character list. -/
def digitsVal (cs : List Char) : Option Nat :=
  if cs ≠ [] ∧ cs.all Char.isDigit then
    Option.some (cs.foldl (fun n c => 10 * n + (c.toNat - 48)) 0)
  else Option.none

/-- Python `int(s)` on a string: optional surrounding whitespace, optional
sign, decimal digits; anything else raises `ValueError` (`Option.none`). -/
def pyIntParse (s : String) : Option Int :=
  match pyStrip s with
  | '+' :: rest => (digitsVal rest).map (fun n => (n : Int))
  | '-' :: rest => (digitsVal rest).map (fun n => -(n : Int))
  | cs => (digitsVal cs).map (fun n => (n : Int))

/-- A cell of the formatter's row: `"|".join` requires actual strings and
raises `TypeError` otherwise. -/
def strCell : PyVal → Option String
  | PyVal.str s => Option.some s
  | _ => Option.none

/-- One line of `format_resource_result` (lines 174-176): the id followed
by each projected field's value (missing fields default to `""`), joined
with `"|"`; fails when the entity is not a dict or a cell is not a
string. -/
def formatRow (k : PyVal) (v : PyVal) (fields : List String) : Option String :=
  match v with
  | PyVal.dict f =>
      match (k :: fields.map (fun fd => getD f fd (PyVal.str ""))).mapM strCell with
      | Option.some cells => Option.some (String.intercalate "|" cells)
      | Option.none => Option.none
  | _ => Option.none

/-- All lines of the formatter, in store iteration order. -/
def formatRows : StoreA → List String → Option (List String)
  | [], _ => Option.some []
  | (k, v) :: rest, fields =>
      match formatRow k v fields with
      | Option.some line =>
          match formatRows rest fields with
          | Option.some lines => Option.some (line :: lines)
          | Option.none => Option.none
      | Option.none => Option.none

/-- `format_resource_result` (lines 171-177). -/
def format_resource_result (store : StoreA) (fields : List String) : Option String :=
  (formatRows store fields).map (String.intercalate "\n")

/-- `create_collection_xml` (lines 144-151): the single-row XML collection
document.  The base64 transport encoding applied on line 151 is an
injective re-encoding and is left abstract here; attribute escaping by
`ElementTree` is omitted (no claim touches it). -/
def create_collection_xml (fields : List (String × String)) : String :=
  "<collection><row>" ++
    String.join (fields.map (fun kv =>
      "<field name=\"" ++ kv.1 ++ "\" type=\"text\" value=\"" ++ kv.2 ++ "\" />")) ++
    "</row></collection>"

/-- The caller-supplied tool arguments, coerced to string fields for the
XML document; a non-string value makes `ElementTree` serialization raise
`TypeError` before any request is sent. -/
def xmlFieldsOfArgs : List (String × PyVal) → Option (List (String × String))
  | [] => Option.some []
  | (k, v) :: rest =>
      match v with
      | PyVal.str s => (xmlFieldsOfArgs rest).map (fun t => (k, s) :: t)
      | _ => Option.none

/-! ## Tool dispatcher (`handle_call_tool`, lines 386-493) -/

/-- External collaborators of one dispatch call: the token provider's
outcome, the outcome of the (single) POST the call may issue, and the
scripted GET responses for a retrieval walk. -/
structure DispatchEnv where
  token : Except String String
  postResult : Except String PyVal
  pages : List PageResult

/-- One CSV-loaded work-queue tool configuration row (all cells are
strings, as produced by `csv.DictReader`). -/
abbrev ConfigRow := List (String × String)

/-- `row[k]` / `row.get(k)` on a configuration row. -/
def cfgGet (cfg : ConfigRow) (k : String) : Option String :=
  (cfg.find? (fun p => decide (p.1 = k))).map Prod.snd

/-- Python `config.get(k) or d`: the default also replaces a present but
empty string. -/
def orEmpty (o : Option String) (d : String) : String :=
  match o with
  | Option.some s => if s = "" then d else s
  | Option.none => d

/-- Line 417: `int(config.get("priority") or "100")`. -/
def parsedPriority (cfg : ConfigRow) : Option Int :=
  pyIntParse (orEmpty (cfgGet cfg "priority") "100")

/-- Line 420: `(config.get("tags") or "tag1").split(",")`, trimmed. -/
def tagsOf (cfg : ConfigRow) : List String :=
  ((orEmpty (cfgGet cfg "tags") "tag1").splitOn ",").map String.trim

/-- The JSON body POSTed to the work-queue items endpoint (lines 415-422);
`deferredUntil` is always null and carried implicitly. -/
structure WorkItemPayload where
  keyValue : String
  priority : Int
  status : String
  tags : List String
  data : String
deriving DecidableEq, Repr

/-- The payload built from a configuration row, a parsed priority and the
XML-encoded caller arguments. -/
def mkPayload (cfg : ConfigRow) (p : Int) (fs : List (String × String)) :
    WorkItemPayload :=
  WorkItemPayload.mk ((cfgGet cfg "keyValue").getD "Key0001") p
    ((cfgGet cfg "status").getD "Added by MCP Server") (tagsOf cfg)
    (create_collection_xml fs)

/-- The per-kind staging (`internal_resources`) and published
(`resources`) mappings, plus the work-queue configuration lookup that CSV
loading populates (`internal_resources["workqueues"]`). -/
structure ServerState where
  workqueues : String → Option ConfigRow
  staging : String → StoreA
  published : String → StoreA

/-- Pointwise update of a kind-indexed store map. -/
def setStore (m : String → StoreA) (k : String) (v : StoreA) : String → StoreA :=
  fun k2 => if k2 = k then v else m k2

/-- What one dispatch call produced: the protocol result (`Except.error`
models an exception raised out of `handle_call_tool`), the state after the
call, and the work-queue POST bodies actually sent. -/
structure CallOutcome where
  out : Except String String
  staging : String → StoreA
  published : String → StoreA
  wqPosts : List WorkItemPayload

/-- A caught work-queue failure rendered as text (line 427). -/
def wqErr (st : ServerState) (e : String) : CallOutcome :=
  CallOutcome.mk (Except.ok ("Error creating work queue item: " ++ e))
    st.staging st.published []

/-- The work-queue submission branch (lines 390-427).  All failures are
inside the `try` and render as text.  The payload (and hence the priority
parse and the XML serialization) is built before the POST is issued. -/
def workqueueCall (env : DispatchEnv) (st : ServerState) (cfg : ConfigRow)
    (arguments : Option (List (String × PyVal))) : CallOutcome :=
  match arguments with
  | Option.none => wqErr st "Missing arguments"
  | Option.some d =>
      if d.isEmpty then wqErr st "Missing arguments"
      else
        match env.token with
        | Except.error e => wqErr st e
        | Except.ok tok =>
            if tok = "" then wqErr st "Invalid Client ID or Secret"
            else
              match cfgGet cfg "workqueueid" with
              | Option.none => wqErr st "\x27workqueueid\x27"
              | Option.some _qid =>
                  match parsedPriority cfg with
                  | Option.none =>
                      wqErr st ("invalid literal for int() with base 10: \x27" ++
                        orEmpty (cfgGet cfg "priority") "100" ++ "\x27")
                  | Option.some p =>
                      match xmlFieldsOfArgs d with
                      | Option.none => wqErr st "cannot serialize argument value"
                      | Option.some fs =>
                          let payload := mkPayload cfg p fs
                          match env.postResult with
                          | Except.error e =>
                              CallOutcome.mk
                                (Except.ok ("Error creating work queue item: " ++ e))
                                st.staging st.published [payload]
                          | Except.ok res =>
                              match res with
                              | PyVal.dict rf =>
                                  CallOutcome.mk
                                    (Except.ok ("Work queue item created: " ++
                                      pyStr (getD rf "itemId" PyVal.none)))
                                    st.staging st.published [payload]
                              | _ =>
                                  CallOutcome.mk
                                    (Except.ok ("Error creating work queue item: " ++
                                      "attribute error"))
                                    st.staging st.published [payload]

/-- A caught start-flow failure rendered as text (line 449). -/
def sfErr (st : ServerState) (e : String) : CallOutcome :=
  CallOutcome.mk (Except.ok ("Error starting automation flow: " ++ e))
    st.staging st.published []

/-- The start-automation-flow branch (lines 429-449).  A truthy execution
id is registered directly into the published activity-log mapping. -/
def startFlowCall (env : DispatchEnv) (st : ServerState)
    (arguments : Option (List (String × PyVal))) : CallOutcome :=
  match arguments with
  | Option.none => sfErr st "Missing arguments"
  | Option.some d =>
      if d.isEmpty then sfErr st "Missing arguments"
      else
        match env.token with
        | Except.error e => sfErr st e
        | Except.ok tok =>
            if tok = "" then sfErr st "Invalid Client ID or Secret"
            else
              match getItem d "automation_flow_id" with
              | Option.none => sfErr st "\x27automation_flow_id\x27"
              | Option.some _fid =>
                  match env.postResult with
                  | Except.error e => sfErr st e
                  | Except.ok res =>
                      match res with
                      | PyVal.dict rf =>
                          let execId := getD rf "id" (PyVal.str "")
                          if pyTruthy execId then
                            CallOutcome.mk
                              (Except.ok ("Started automation flow: " ++ pyStr execId))
                              st.staging
                              (setStore st.published "activitylogs"
                                (storeSet (st.published "activitylogs") execId
                                  (PyVal.dict [("id", execId)])))
                              []
                          else sfErr st "Execution ID not returned"
                      | _ => sfErr st "attribute error"

/-- The fixed table of lines 453-458 mapping retrieval tool names to
(endpoint URL, entity kind, display-field projection). -/
def retrieveMapping (baseUrl : String) :
    List (String × String × String × List String) :=
  [("retrieve-automation-flow-list",
      (baseUrl ++ "/automation-flows", "automationflows",
       ["name", "description"])),
   ("retrieve-activity-log-list",
      (baseUrl ++ "/automation-flows/executions", "activitylogs",
       ["status", "automationFlowName"])),
   ("retrieve-digital-worker-list",
      (baseUrl ++ "/digital-workers", "digitalworkers",
       ["hostName", "status"])),
   ("retrieve-session-list",
      (baseUrl ++ "/sessions", "sessions",
       ["status", "requestedDate"]))]

/-- `mapping.get(name)` on the retrieval table. -/
def mappingLookup (baseUrl name : String) :
    Option (String × String × List String) :=
  ((retrieveMapping baseUrl).find? (fun p => decide (p.1 = name))).map Prod.snd

/-- The retrieval branch body (lines 461-490), after the unknown-name
guard.  `args` is the truthiness-normalized copy of `arguments` used for
the walk; `set_resource` is read from the ORIGINAL `arguments` object on
line 473, after the walk and the formatting, so an absent arguments
mapping raises `AttributeError` there, is caught, and renders as an error
text while the staging mapping stays repopulated. -/
def retrieveCall (env : DispatchEnv) (st : ServerState)
    (arguments : Option (List (String × PyVal)))
    (url0 key : String) (fields : List String) : CallOutcome :=
  let args : List (String × PyVal) :=
    match arguments with
    | Option.some d => if d.isEmpty then [] else d
    | Option.none => []
  match env.token with
  | Except.error e =>
      CallOutcome.mk (Except.ok ("Error " ++ key ++ ": " ++ e))
        st.staging st.published []
  | Except.ok tok =>
      if tok = "" then
        CallOutcome.mk
          (Except.ok ("Error " ++ key ++ ": Invalid Client ID or Secret"))
          st.staging st.published []
      else
        let walk := retrieve_entities env.pages url0 args (st.staging key)
        let newStore := walk.store
        let staging2 := setStore st.staging key newStore
        match format_resource_result newStore fields with
        | Option.none =>
            CallOutcome.mk
              (Except.ok ("Error " ++ key ++ ": sequence item expected str instance"))
              staging2 st.published []
        | Option.some txt =>
            match arguments with
            | Option.none =>
                CallOutcome.mk
                  (Except.ok ("Error " ++ key ++
                    ": \x27NoneType\x27 object has no attribute \x27get\x27"))
                  staging2 st.published []
            | Option.some d =>
                if pyTruthy (getD d "set_resource" PyVal.none) then
                  CallOutcome.mk
                    (Except.ok ("Resource refreshed. Retrieved " ++
                      toString newStore.length ++ " " ++ key ++ ".\n" ++ txt))
                    staging2 (setStore st.published key newStore) []
                else
                  CallOutcome.mk
                    (Except.ok ("Retrieved " ++ toString newStore.length ++ " " ++
                      key ++ ".\n" ++ txt))
                    staging2 st.published []

/-- `handle_call_tool` (lines 386-493): dispatch by name, first match
wins.  The two unknown-name paths (lines 459-460 and 492-493) RAISE a
`ValueError` out of the handler (`Except.error`); every other failure is
caught inside its branch. -/
def handle_call_tool (baseUrl : String) (env : DispatchEnv) (st : ServerState)
    (name : String) (arguments : Option (List (String × PyVal))) : CallOutcome :=
  match st.workqueues name with
  | Option.some cfg => workqueueCall env st cfg arguments
  | Option.none =>
      if name = "start-automation-flow" then startFlowCall env st arguments
      else if strStartsWith name "retrieve-" then
        match mappingLookup baseUrl name with
        | Option.some (url0, key, fields) =>
            retrieveCall env st arguments url0 key fields
        | Option.none =>
            CallOutcome.mk (Except.error ("Unknown tool: " ++ name))
              st.staging st.published []
      else
        CallOutcome.mk (Except.error ("Unknown tool: " ++ name))
          st.staging st.published []

/-! ## Dynamic tool loading (`load_tools_from_csv`, lines 153-169) -/

/-- An MCP tool descriptor as built from one CSV row. -/
structure ToolDescriptor where
  name : String
  description : String
  inputSchema : PyVal
deriving DecidableEq, Repr

/-- `row[k]` on a CSV row. -/
def rowGet (row : ConfigRow) (k : String) : Option String :=
  (row.find? (fun p => decide (p.1 = k))).map Prod.snd

/-- The work-queue configuration lookup keyed by tool name. -/
abbrev WqMap := String → Option ConfigRow

/-- Registration of one row under its tool name (line 166). -/
def wqSet (m : WqMap) (n : String) (row : ConfigRow) : WqMap :=
  fun k2 => if k2 = n then Option.some row else m k2

/-- `load_tools_from_csv` with the `json.loads` JSON parser passed as the
oracle `parse` (an external library call).  Per row: read `name`,
`description`, `inputSchema`, parse the schema (the `types.Tool`
constructor requires the parsed value to be a dict), append the
descriptor, register the row in the work-queue lookup.  Any failure hits
the `except` on line 167, which returns the descriptors built so far;
already-performed registrations are kept. -/
def load_tools_from_csv (parse : String → Option PyVal) :
    List ConfigRow → WqMap → List ToolDescriptor × WqMap
  | [], wq => ([], wq)
  | row :: rest, wq =>
      match rowGet row "name", rowGet row "description", rowGet row "inputSchema" with
      | Option.some n, Option.some ds, Option.some s =>
          match parse s with
          | Option.some (PyVal.dict f) =>
              let res := load_tools_from_csv parse rest (wqSet wq n row)
              (ToolDescriptor.mk n ds (PyVal.dict f) :: res.1, res.2)
          | _ => ([], wq)
      | _, _, _ => ([], wq)

/-- Whether an optional parsed value is a dict (what the `types.Tool`
constructor accepts as an input schema). -/
def isDictVal : Option PyVal → Bool
  | Option.some (PyVal.dict _) => true
  | _ => false

/-- A row the loader accepts: all three columns present and the schema
parses to a dict. -/
def goodRow (parse : String → Option PyVal) (row : ConfigRow) : Bool :=
  (rowGet row "name").isSome && (rowGet row "description").isSome &&
    isDictVal ((rowGet row "inputSchema").bind parse)

/-- The descriptor a good row yields. -/
def toolOfRow (parse : String → Option PyVal) (row : ConfigRow) : ToolDescriptor :=
  ToolDescriptor.mk ((rowGet row "name").getD "") ((rowGet row "description").getD "")
    (((rowGet row "inputSchema").bind parse).getD PyVal.none)

/-- The registration a good row performs. -/
def regRow (m : WqMap) (row : ConfigRow) : WqMap :=
  wqSet m ((rowGet row "name").getD "") row

/-! ## Resource reading (`handle_read_resource`, lines 211-238) -/

/-- What `handle_read_resource` returns when it does not raise: the
JSON-dumped detail, or the JSON-dumped error payload built in the
`except` arm (line 238). -/
inductive ReadResult where
  | detailDump (v : PyVal)
  | errorDump (msg : String)
deriving DecidableEq, Repr

/-- The `scheme_to_url` table (lines 214-223). -/
def schemeToUrl (baseUrl scheme : String) : Option String :=
  (([("automationflows", baseUrl ++ "/automation-flows"),
     ("activitylogs", baseUrl ++ "/automation-flows/executions"),
     ("digitalworkers", baseUrl ++ "/digital-workers"),
     ("sessions", baseUrl ++ "/sessions"),
     ("automationflow", baseUrl ++ "/automation-flows"),
     ("activitylog", baseUrl ++ "/automation-flows/executions"),
     ("digitalworker", baseUrl ++ "/digital-workers"),
     ("session", baseUrl ++ "/sessions")]).find?
    (fun p => decide (p.1 = scheme))).map Prod.snd

/-- `handle_read_resource` (lines 211-238).  The scheme check (line 225)
and the token acquisition (line 228) sit OUTSIDE the `try`, so their
failures propagate (`Except.error`); only the detail request is caught
and rendered as an error payload. -/
def handle_read_resource (baseUrl scheme path : String)
    (token : Except String String) (detail : String → Except String PyVal) :
    Except String ReadResult :=
  match schemeToUrl baseUrl scheme with
  | Option.none => Except.error ("Unsupported URI scheme: " ++ scheme)
  | Option.some base =>
      let rid := String.mk (path.data.dropWhile (fun c => c == '/'))
      match token with
      | Except.error e => Except.error e
      | Except.ok _tok =>
          let url := base ++ "/" ++ rid ++
            (if scheme = "activitylog" ∨ scheme = "activitylogs"
             then "/logs" else "")
          match detail url with
          | Except.error e => Except.ok (ReadResult.errorDump e)
          | Except.ok v => Except.ok (ReadResult.detailDump v)

/-! ## Claim C1: dispatch-boundary error handling -/

/-- A server state with no dynamic tools and empty stores. -/
def stEmpty : ServerState :=
  ServerState.mk (fun _ => Option.none) (fun _ => []) (fun _ => [])

/-- A benign environment: a valid token, a successful POST, one empty
page. -/
def envT : DispatchEnv :=
  DispatchEnv.mk (Except.ok "t") (Except.ok PyVal.none)
    [PageResult.ok (PyVal.dict [])]

theorem mappingLookup_cases (baseUrl name : String)
    (v : String × String × List String)
    (h : mappingLookup baseUrl name = Option.some v) :
    name = "retrieve-automation-flow-list" ∨
    name = "retrieve-activity-log-list" ∨
    name = "retrieve-digital-worker-list" ∨
    name = "retrieve-session-list" := by
  by_cases h1 : "retrieve-automation-flow-list" = name
  · exact Or.inl h1.symm
  by_cases h2 : "retrieve-activity-log-list" = name
  · exact Or.inr (Or.inl h2.symm)
  by_cases h3 : "retrieve-digital-worker-list" = name
  · exact Or.inr (Or.inr (Or.inl h3.symm))
  by_cases h4 : "retrieve-session-list" = name
  · exact Or.inr (Or.inr (Or.inr h4.symm))
  exfalso
  simp [mappingLookup, retrieveMapping, List.find?, h1, h2, h3, h4] at h

theorem mappingLookup_startsWith (baseUrl name : String)
    (v : String × String × List String)
    (h : mappingLookup baseUrl name = Option.some v) :
    strStartsWith name "retrieve-" = true := by
  rcases mappingLookup_cases baseUrl name v h with h | h | h | h <;> subst h <;> decide

theorem mappingLookup_ne_start (baseUrl name : String)
    (v : String × String × List String)
    (h : mappingLookup baseUrl name = Option.some v) :
    name ≠ "start-automation-flow" := by
  rcases mappingLookup_cases baseUrl name v h with h | h | h | h <;> subst h <;> decide

theorem workqueueCall_out_ok (env : DispatchEnv) (st : ServerState)
    (cfg : ConfigRow) (arguments : Option (List (String × PyVal))) :
    ∃ t, (workqueueCall env st cfg arguments).out = Except.ok t := by
  unfold workqueueCall wqErr
  repeat' first
    | exact ⟨_, rfl⟩
    | split
    | dsimp only

theorem startFlowCall_out_ok (env : DispatchEnv) (st : ServerState)
    (arguments : Option (List (String × PyVal))) :
    ∃ t, (startFlowCall env st arguments).out = Except.ok t := by
  unfold startFlowCall sfErr
  repeat' first
    | exact ⟨_, rfl⟩
    | split
    | dsimp only

theorem retrieveCall_out_ok (env : DispatchEnv) (st : ServerState)
    (arguments : Option (List (String × PyVal)))
    (url0 key : String) (fields : List String) :
    ∃ t, (retrieveCall env st arguments url0 key fields).out = Except.ok t := by
  unfold retrieveCall
  repeat' first
    | exact ⟨_, rfl⟩
    | split
    | dsimp only

/-- C1 counterexample: `handle_call_tool` RAISES `ValueError` for an
unknown tool name — both for a name matching no dispatch branch and for an
unrecognized retrieve-prefixed name — instead of returning a textual error
result (the claim asserts it never raises past its boundary). -/
theorem C1_cex :
    (handle_call_tool "b" envT stEmpty "no-such-tool" Option.none).out =
      Except.error ("Unknown tool: no-such-tool") ∧
    (handle_call_tool "b" envT stEmpty "retrieve-bogus" Option.none).out =
      Except.error ("Unknown tool: retrieve-bogus") :=
  ⟨rfl, rfl⟩

/-- C1 amended: a call whose name matches a dispatch branch (a registered
work-queue tool, the start-flow tool, or one of the four retrieval tools)
always returns a textual result — every failure inside those branches is
caught; a name matching no branch (including an unrecognized
retrieve-prefixed name) raises a `ValueError` whose message contains the
tool name. -/
theorem C1_dispatch_amended (baseUrl : String) (env : DispatchEnv)
    (st : ServerState) (name : String)
    (arguments : Option (List (String × PyVal))) :
    ((st.workqueues name).isSome = true ∨ name = "start-automation-flow" ∨
       (mappingLookup baseUrl name).isSome = true →
     ∃ t, (handle_call_tool baseUrl env st name arguments).out = Except.ok t) ∧
    ((st.workqueues name).isSome = false → name ≠ "start-automation-flow" →
       (mappingLookup baseUrl name).isSome = false →
     (handle_call_tool baseUrl env st name arguments).out =
       Except.error ("Unknown tool: " ++ name)) := by
  constructor
  · intro hmatch
    cases hw : st.workqueues name with
    | some cfg =>
        simp only [handle_call_tool, hw]
        exact workqueueCall_out_ok env st cfg arguments
    | none =>
        rcases hmatch with hq | hs | hm
        · rw [hw] at hq
          simp at hq
        · subst hs
          simp only [handle_call_tool, hw, if_pos rfl]
          exact startFlowCall_out_ok env st arguments
        · rw [Option.isSome_iff_exists] at hm
          obtain ⟨v, hv⟩ := hm
          obtain ⟨url0, key, fields⟩ := v
          have hne := mappingLookup_ne_start baseUrl name _ hv
          have hsw := mappingLookup_startsWith baseUrl name _ hv
          simp only [handle_call_tool, hw, if_neg hne, hsw, if_true, hv]
          exact retrieveCall_out_ok env st arguments url0 key fields
  · intro hq hne hm
    cases hw : st.workqueues name with
    | some cfg => rw [hw] at hq; simp at hq
    | none =>
        have hm2 : mappingLookup baseUrl name = Option.none := by
          cases h2 : mappingLookup baseUrl name with
          | none => rfl
          | some v => rw [h2] at hm; simp at hm
        by_cases hsw : strStartsWith name "retrieve-" = true
        · simp only [handle_call_tool, hw, if_neg hne, hsw, if_true, hm2]
        · simp only [Bool.not_eq_true] at hsw
          simp only [handle_call_tool, hw, if_neg hne, hsw, Bool.false_eq_true,
            if_false]

/-- C1 witness: a known retrieval tool name returns an ok textual result. -/
theorem C1_witness :
    ((stEmpty.workqueues "retrieve-automation-flow-list").isSome = true ∨
       "retrieve-automation-flow-list" = "start-automation-flow" ∨
       (mappingLookup "b" "retrieve-automation-flow-list").isSome = true) ∧
    ∃ t, (handle_call_tool "b" envT stEmpty "retrieve-automation-flow-list"
        (Option.some [])).out = Except.ok t :=
  ⟨Or.inr (Or.inr (by decide)),
   (C1_dispatch_amended "b" envT stEmpty "retrieve-automation-flow-list"
     (Option.some [])).1 (Or.inr (Or.inr (by decide)))⟩

/-! ## Claim C5: set_resource publication semantics -/

/-- C5: on a retrieval tool call with a truthy `set_resource` argument the
published mapping for the kind becomes the snapshot of the staging mapping
at call completion and the output carries the "Resource refreshed" notice;
with `set_resource` falsy the published mappings are untouched and the
plain "Retrieved" output is returned. -/
theorem C5_set_resource_publishes (baseUrl : String) (env : DispatchEnv)
    (st : ServerState) (name : String) (d : List (String × PyVal))
    (url0 key : String) (fields : List String) (tok txt : String)
    (hwq : st.workqueues name = Option.none)
    (hm : mappingLookup baseUrl name = Option.some (url0, key, fields))
    (htokE : env.token = Except.ok tok) (htok : tok ≠ "")
    (hfmt : format_resource_result
        ((retrieve_entities env.pages url0 (if d.isEmpty then [] else d)
          (st.staging key)).store) fields = Option.some txt) :
    (pyTruthy (getD d "set_resource" PyVal.none) = true →
       (handle_call_tool baseUrl env st name (Option.some d)).out =
         Except.ok ("Resource refreshed. Retrieved " ++
           toString ((retrieve_entities env.pages url0
             (if d.isEmpty then [] else d) (st.staging key)).store).length ++
           " " ++ key ++ ".\n" ++ txt) ∧
       (handle_call_tool baseUrl env st name (Option.some d)).published key =
         (retrieve_entities env.pages url0 (if d.isEmpty then [] else d)
           (st.staging key)).store ∧
       (handle_call_tool baseUrl env st name (Option.some d)).published key =
         (handle_call_tool baseUrl env st name (Option.some d)).staging key ∧
       (∀ k2, k2 ≠ key →
         (handle_call_tool baseUrl env st name (Option.some d)).published k2 =
           st.published k2)) ∧
    (pyTruthy (getD d "set_resource" PyVal.none) = false →
       (handle_call_tool baseUrl env st name (Option.some d)).out =
         Except.ok ("Retrieved " ++
           toString ((retrieve_entities env.pages url0
             (if d.isEmpty then [] else d) (st.staging key)).store).length ++
           " " ++ key ++ ".\n" ++ txt) ∧
       (handle_call_tool baseUrl env st name (Option.some d)).published =
         st.published) := by
  have hne := mappingLookup_ne_start baseUrl name _ hm
  have hsw := mappingLookup_startsWith baseUrl name _ hm
  have hcall : handle_call_tool baseUrl env st name (Option.some d) =
      retrieveCall env st (Option.some d) url0 key fields := by
    simp only [handle_call_tool, hwq, if_neg hne, hsw, if_true, hm]
  rw [hcall]
  simp only [retrieveCall, htokE, htok, hfmt]
  constructor
  · intro ht
    simp only [ht, if_true, if_pos]
    refine ⟨rfl, ?_, ?_, ?_⟩
    · simp [setStore]
    · simp [setStore]
    · intro k2 hk2
      simp [setStore, hk2]
  · intro ht
    simp only [ht, Bool.false_eq_true, if_false]
    exact ⟨trivial, trivial⟩

/-- C5 witness: a concrete refreshed call on an empty sessions page. -/
theorem C5_witness :
    (handle_call_tool "b" envT stEmpty "retrieve-session-list"
        (Option.some [("set_resource", PyVal.bool true)])).out =
      Except.ok ("Resource refreshed. Retrieved 0 sessions.\n") ∧
    (handle_call_tool "b" envT stEmpty "retrieve-session-list"
        (Option.some [("set_resource", PyVal.bool true)])).published "sessions" =
      (handle_call_tool "b" envT stEmpty "retrieve-session-list"
        (Option.some [("set_resource", PyVal.bool true)])).staging "sessions" := by
  have h := (C5_set_resource_publishes "b" envT stEmpty "retrieve-session-list"
    [("set_resource", PyVal.bool true)] ("b" ++ "/sessions") "sessions"
    ["status", "requestedDate"] "t" "" rfl (by decide) rfl (by decide)
    (by decide)).1 (by decide)
  refine ⟨?_, h.2.2.1⟩
  rw [h.1]
  rfl

/-! ## Claim C6: work-queue priority semantics -/

/-- A server state carrying one registered work-queue tool `wq-tool` with
priority `"50"`. -/
def stWq : ServerState :=
  ServerState.mk
    (fun n => if n = "wq-tool"
      then Option.some [("workqueueid", "q1"), ("priority", "50")]
      else Option.none)
    (fun _ => []) (fun _ => [])

/-- C6: a missing or empty priority configuration parses to 100, `"50"`
parses to 50, and whenever the priority parses the single POST issued
carries exactly that value; an unparsable priority makes the call return a
textual error and send NO HTTP request (the parse happens at payload build
time, before the request). -/
theorem C6_priority_semantics (baseUrl : String) (env : DispatchEnv)
    (st : ServerState) (name : String) (cfg : ConfigRow)
    (d : List (String × PyVal)) (tok qid : String)
    (hwq : st.workqueues name = Option.some cfg)
    (hd : d.isEmpty = false)
    (htokE : env.token = Except.ok tok) (htok : tok ≠ "")
    (hq : cfgGet cfg "workqueueid" = Option.some qid) :
    (cfgGet cfg "priority" = Option.none → parsedPriority cfg = Option.some 100) ∧
    (cfgGet cfg "priority" = Option.some "" →
       parsedPriority cfg = Option.some 100) ∧
    (cfgGet cfg "priority" = Option.some "50" →
       parsedPriority cfg = Option.some 50) ∧
    (∀ p fs, parsedPriority cfg = Option.some p →
       xmlFieldsOfArgs d = Option.some fs →
       (handle_call_tool baseUrl env st name (Option.some d)).wqPosts.map
         (fun w => w.priority) = [p]) ∧
    (parsedPriority cfg = Option.none →
       (handle_call_tool baseUrl env st name (Option.some d)).wqPosts = [] ∧
       (handle_call_tool baseUrl env st name (Option.some d)).out =
         Except.ok ("Error creating work queue item: " ++
           ("invalid literal for int() with base 10: \x27" ++
             orEmpty (cfgGet cfg "priority") "100" ++ "\x27"))) := by
  have hcall : handle_call_tool baseUrl env st name (Option.some d) =
      workqueueCall env st cfg (Option.some d) := by
    simp only [handle_call_tool, hwq]
  refine ⟨?_, ?_, ?_, ?_, ?_⟩
  · intro h
    simp only [parsedPriority, h]
    decide
  · intro h
    simp only [parsedPriority, h]
    decide
  · intro h
    simp only [parsedPriority, h]
    decide
  · intro p fs hp hx
    rw [hcall]
    simp only [workqueueCall, hd, Bool.false_eq_true, if_false, htokE, htok,
      hq, hp, hx]
    cases env.postResult with
    | error e => rfl
    | ok res => cases res <;> rfl
  · intro hpn
    rw [hcall]
    simp only [workqueueCall, hd, Bool.false_eq_true, if_false, htokE, htok,
      hq, hpn]
    exact ⟨rfl, rfl⟩

/-- C6 witness: the registered tool with priority `"50"` posts a payload
with priority 50. -/
theorem C6_witness :
    (handle_call_tool "b" envT stWq "wq-tool"
        (Option.some [("a", PyVal.str "x")])).wqPosts.map
      (fun w => w.priority) = [50] ∧
    parsedPriority [("workqueueid", "q1"), ("priority", "50")] =
      Option.some 50 := by
  have h := C6_priority_semantics "b" envT stWq "wq-tool"
    [("workqueueid", "q1"), ("priority", "50")] [("a", PyVal.str "x")]
    "t" "q1" (by decide) (by decide) rfl (by decide) (by decide)
  exact ⟨h.2.2.2.1 50 [("a", "x")] (by decide) (by decide), h.2.2.1 (by decide)⟩

/-! ## Claim C10: retrieval with absent arguments -/

/-- C10: a retrieval tool invoked with the arguments mapping entirely
absent returns a textual error result (the `AttributeError` from reading
`set_resource` off `None` on line 473, caught by the branch handler)
instead of the formatted listing; the staging mapping is nevertheless
cleared and repopulated from the walk, and the published mappings stay
unchanged. -/
theorem C10_none_arguments (baseUrl : String) (env : DispatchEnv)
    (st : ServerState) (name url0 key : String) (fields : List String)
    (tok txt : String)
    (hwq : st.workqueues name = Option.none)
    (hm : mappingLookup baseUrl name = Option.some (url0, key, fields))
    (htokE : env.token = Except.ok tok) (htok : tok ≠ "")
    (hfmt : format_resource_result
        ((retrieve_entities env.pages url0 [] (st.staging key)).store) fields =
      Option.some txt) :
    (handle_call_tool baseUrl env st name Option.none).out =
      Except.ok ("Error " ++ key ++
        ": \x27NoneType\x27 object has no attribute \x27get\x27") ∧
    (handle_call_tool baseUrl env st name Option.none).staging key =
      (retrieve_entities env.pages url0 [] (st.staging key)).store ∧
    (handle_call_tool baseUrl env st name Option.none).published =
      st.published := by
  have hne := mappingLookup_ne_start baseUrl name _ hm
  have hsw := mappingLookup_startsWith baseUrl name _ hm
  have hcall : handle_call_tool baseUrl env st name Option.none =
      retrieveCall env st Option.none url0 key fields := by
    simp only [handle_call_tool, hwq, if_neg hne, hsw, if_true, hm]
  rw [hcall]
  simp only [retrieveCall, htokE, htok, hfmt]
  refine ⟨?_, ?_, ?_⟩
  · first | rfl | trivial
  · first | simp [setStore] | trivial
  · first | rfl | trivial

/-- C10 witness: a concrete no-arguments retrieval call. -/
theorem C10_witness :
    (handle_call_tool "b" envT stEmpty "retrieve-digital-worker-list"
        Option.none).out =
      Except.ok ("Error digitalworkers: " ++
        "\x27NoneType\x27 object has no attribute \x27get\x27") ∧
    (handle_call_tool "b" envT stEmpty "retrieve-digital-worker-list"
        Option.none).published = stEmpty.published := by
  have h := C10_none_arguments "b" envT stEmpty "retrieve-digital-worker-list"
    ("b" ++ "/digital-workers") "digitalworkers" ["hostName", "status"]
    "t" "" rfl (by decide) rfl (by decide) (by decide)
  refine ⟨?_, h.2.2⟩
  rw [h.1]
  rfl

/-! ## Claim C7: dynamic tool loading -/

theorem goodRow_parts (parse : String → Option PyVal) (row : ConfigRow)
    (h : goodRow parse row = true) :
    ∃ n ds s f, rowGet row "name" = Option.some n ∧
      rowGet row "description" = Option.some ds ∧
      rowGet row "inputSchema" = Option.some s ∧
      parse s = Option.some (PyVal.dict f) := by
  simp only [goodRow, Bool.and_eq_true] at h
  obtain ⟨⟨hn, hd⟩, hs⟩ := h
  rw [Option.isSome_iff_exists] at hn hd
  obtain ⟨n, hn⟩ := hn
  obtain ⟨ds, hd⟩ := hd
  cases hss : rowGet row "inputSchema" with
  | none => rw [hss] at hs; simp [isDictVal] at hs
  | some s =>
      rw [hss, Option.some_bind] at hs
      cases hps : parse s with
      | none => rw [hps] at hs; simp [isDictVal] at hs
      | some v =>
          rw [hps] at hs
          cases v with
          | dict f => exact ⟨n, ds, s, f, hn, hd, rfl, hps⟩
          | none => simp [isDictVal] at hs
          | bool b => simp [isDictVal] at hs
          | int m => simp [isDictVal] at hs
          | str t => simp [isDictVal] at hs
          | list xs => simp [isDictVal] at hs

theorem load_cons_good (parse : String → Option PyVal) (row : ConfigRow)
    (rest : List ConfigRow) (wq : WqMap) (h : goodRow parse row = true) :
    load_tools_from_csv parse (row :: rest) wq =
      (toolOfRow parse row ::
         (load_tools_from_csv parse rest (regRow wq row)).1,
       (load_tools_from_csv parse rest (regRow wq row)).2) := by
  obtain ⟨n, ds, s, f, hn, hd, hss, hps⟩ := goodRow_parts parse row h
  simp only [load_tools_from_csv, hn, hd, hss, hps, toolOfRow, regRow,
    Option.getD_some, Option.some_bind]

/-- C7: when a row's input-shape column fails to parse, the load stops at
that row and returns exactly what the earlier rows built; the loaded
descriptors are the per-row descriptors in order and the work-queue lookup
receives exactly the successfully parsed rows. -/
theorem C7_bad_schema_stops_load (parse : String → Option PyVal)
    (pre : List ConfigRow) (bad : ConfigRow) (rest : List ConfigRow)
    (wq0 : WqMap) (sBad : String)
    (hpre : ∀ r ∈ pre, goodRow parse r = true)
    (hbn : (rowGet bad "name").isSome = true)
    (hbd : (rowGet bad "description").isSome = true)
    (hbs : rowGet bad "inputSchema" = Option.some sBad)
    (hbp : parse sBad = Option.none) :
    load_tools_from_csv parse (pre ++ bad :: rest) wq0 =
      load_tools_from_csv parse pre wq0 ∧
    load_tools_from_csv parse pre wq0 =
      (pre.map (toolOfRow parse), pre.foldl regRow wq0) := by
  rw [Option.isSome_iff_exists] at hbn hbd
  obtain ⟨n2, hn2⟩ := hbn
  obtain ⟨ds2, hd2⟩ := hbd
  revert hpre
  induction pre generalizing wq0 with
  | nil =>
      intro _hpre
      constructor
      · simp only [List.nil_append, load_tools_from_csv, hn2, hd2, hbs, hbp]
      · rfl
  | cons r pre2 ih =>
      intro hpre
      have hr := hpre r (List.mem_cons_self r pre2)
      have hpre2 : ∀ q ∈ pre2, goodRow parse q = true :=
        fun q hq => hpre q (List.mem_cons_of_mem _ hq)
      have ihh := ih (regRow wq0 r) hpre2
      constructor
      · rw [List.cons_append,
          load_cons_good parse r (pre2 ++ bad :: rest) (wq0) hr,
          load_cons_good parse r pre2 wq0 hr, ihh.1]
      · rw [load_cons_good parse r pre2 wq0 hr, ihh.2, List.map_cons,
          List.foldl_cons]

/-- A toy JSON parser for the witness: only the empty object parses. -/
def parseW : String → Option PyVal :=
  fun s => if s = "\x7b\x7d" then Option.some (PyVal.dict []) else Option.none

/-- A well-formed CSV row. -/
def rowGood : ConfigRow :=
  [("name", "tool1"), ("description", "d1"), ("inputSchema", "\x7b\x7d"),
   ("workqueueid", "q1")]

/-- A CSV row whose input-shape column is invalid JSON. -/
def rowBad : ConfigRow :=
  [("name", "tool2"), ("description", "d2"), ("inputSchema", "oops")]

/-- C7 witness: loading `[rowGood, rowBad]` returns exactly the descriptor
of `rowGood`. -/
theorem C7_witness :
    load_tools_from_csv parseW [rowGood, rowBad] (fun _ => Option.none) =
      load_tools_from_csv parseW [rowGood] (fun _ => Option.none) ∧
    (load_tools_from_csv parseW [rowGood] (fun _ => Option.none)).1 =
      [toolOfRow parseW rowGood] := by
  have h := C7_bad_schema_stops_load parseW [rowGood] rowBad []
    (fun _ => Option.none) "oops" (by decide) (by decide) (by decide)
    (by decide) (by decide)
  refine ⟨h.1, ?_⟩
  rw [h.2]
  rfl

/-! ## Claim C9: resource-read error handling -/

/-- C9 counterexample: an unsupported URI scheme and a failed credential
acquisition both RAISE out of `handle_read_resource` (they sit outside the
`try`), refuting "every resource-read failure is returned as a textual
error payload". -/
theorem C9_cex :
    handle_read_resource "b" "ftp" "/x" (Except.ok "tok")
        (fun _ => Except.ok PyVal.none) =
      Except.error ("Unsupported URI scheme: ftp") ∧
    handle_read_resource "b" "sessions" "/x" (Except.error "auth failed")
        (fun _ => Except.ok PyVal.none) =
      Except.error "auth failed" :=
  ⟨rfl, rfl⟩

/-- C9 amended: an unsupported scheme raises `ValueError`, a credential
failure propagates the token provider's exception; only a failure of the
detail request itself is caught and returned as a textual error payload,
and a successful detail request returns its dump. -/
theorem C9_read_amended (baseUrl scheme path : String)
    (token : Except String String) (detail : String → Except String PyVal) :
    (schemeToUrl baseUrl scheme = Option.none →
       handle_read_resource baseUrl scheme path token detail =
         Except.error ("Unsupported URI scheme: " ++ scheme)) ∧
    (∀ base e, schemeToUrl baseUrl scheme = Option.some base →
       token = Except.error e →
       handle_read_resource baseUrl scheme path token detail =
         Except.error e) ∧
    (∀ base tok e, schemeToUrl baseUrl scheme = Option.some base →
       token = Except.ok tok →
       detail (base ++ "/" ++
           String.mk (path.data.dropWhile (fun c => c == '/')) ++
           (if scheme = "activitylog" ∨ scheme = "activitylogs"
            then "/logs" else "")) = Except.error e →
       handle_read_resource baseUrl scheme path token detail =
         Except.ok (ReadResult.errorDump e)) ∧
    (∀ base tok v, schemeToUrl baseUrl scheme = Option.some base →
       token = Except.ok tok →
       detail (base ++ "/" ++
           String.mk (path.data.dropWhile (fun c => c == '/')) ++
           (if scheme = "activitylog" ∨ scheme = "activitylogs"
            then "/logs" else "")) = Except.ok v →
       handle_read_resource baseUrl scheme path token detail =
         Except.ok (ReadResult.detailDump v)) := by
  refine ⟨?_, ?_, ?_, ?_⟩
  · intro h
    simp only [handle_read_resource, h]
  · intro base e hb ht
    simp only [handle_read_resource, hb, ht]
  · intro base tok e hb ht hd
    simp only [handle_read_resource, hb, ht, hd]
  · intro base tok v hb ht hd
    simp only [handle_read_resource, hb, ht, hd]

/-- A detail oracle failing exactly at the activity-log logs URL. -/
def detailW : String → Except String PyVal :=
  fun u => if u = "b/automation-flows/executions/ex1/logs"
    then Except.error "boom" else Except.ok PyVal.none

/-- C9 witness: a failed detail request on the `activitylog` scheme is
returned as an error payload (with the `/logs` suffix applied). -/
theorem C9_witness :
    handle_read_resource "b" "activitylog" "/ex1" (Except.ok "t") detailW =
      Except.ok (ReadResult.errorDump "boom") :=
  (C9_read_amended "b" "activitylog" "/ex1" (Except.ok "t") detailW).2.2.1
    ("b" ++ "/automation-flows/executions") "t" "boom" rfl rfl rfl
